import Mathlib

/-!
Verification of the Green Sprint QR-resolution and geo-proximity core.

The JavaScript source is shallowly embedded:
* `parseQRCode` (QR classification, qr-scanner module) becomes a pure Lean
  function; the platform builtins `JSON.parse` and `new URL` are passed in
  as oracle parameters, since the repository does not define them.
* the sequential lookup chain of `handleScan` becomes a function that threads an
  optional result and records the trace of store calls it issues; the
  record store (`GreenSprintDB.trees.getByQRCode` / `getById`) is an oracle.
* `CampaignService.getNearby` / `calculateDistance` become functions over an
  arbitrary linear ordered field, with the platform `Math` object
  (`sin`, `cos`, `sqrt`, `atan2`, `PI`) abstracted as a `MathModel`.

JavaScript truthiness on possibly-absent strings (`undefined`/`null`/`""`
are falsy) is modelled by `jsTruthy` on `Option String`; `||` becomes
`jsOr`.  JavaScript numbers are modelled exactly (no floating point): a
numeric field that can be absent is `Option α`, and `0` is falsy.
-/

namespace GreenSprint

/-- JS truthiness of a possibly-absent string: `undefined`, `null` and the
empty string are falsy. -/
def jsTruthy : Option String → Bool
  | none => false
  | some s => s ≠ ""

/-- JS `a || b` on possibly-absent strings: yields `a` when truthy, else `b`. -/
def jsOr (a b : Option String) : Option String :=
  if jsTruthy a then a else b

/-- JS `s.startsWith(p)` (computed on the character list so that concrete
instances evaluate in the kernel). -/
def strStartsWith (s p : String) : Bool :=
  p.toList.isPrefixOf s.toList

/-- JS `s.startsWith(p)` lifted to a possibly-absent string (the code only
calls it under a truthiness guard, so the `none` case is unreachable there). -/
def optStartsWith (s : Option String) (p : String) : Bool :=
  match s with
  | none => false
  | some s => strStartsWith s p

/-- JS `hay.includes(needle)` on character lists. -/
def listContainsSub : List Char → List Char → Bool
  | [], needle => needle.isEmpty
  | h :: t, needle => needle.isPrefixOf (h :: t) || listContainsSub t needle

/-- JS `hay.includes(needle)`. -/
def strIncludes (hay needle : String) : Bool :=
  listContainsSub hay.toList needle.toList

/-- Hexadecimal digit, case-insensitive, as in the UUID regex. -/
def isHexChar (c : Char) : Bool :=
  c.isDigit || ('a' ≤ c && c ≤ 'f') || ('A' ≤ c && c ≤ 'F')

/-- Splitting a character list at every `'-'` (the groups of the UUID
pattern). -/
def splitDash : List Char → List (List Char)
  | [] => [[]]
  | c :: t =>
      if c = '-' then [] :: splitDash t
      else
        match splitDash t with
        | g :: gs => (c :: g) :: gs
        | [] => [[c]]

/-- The regex test `/^[0-9a-f]+8-...-[0-9a-f]+12$/i` of the source: five
hyphen-separated case-insensitive hex groups of lengths 8, 4, 4, 4, 12. -/
def isUuidFormat (s : String) : Bool :=
  match splitDash s.toList with
  | [a, b, c, d, e] =>
      a.length == 8 && b.length == 4 && c.length == 4 && d.length == 4 &&
      e.length == 12 && (a ++ b ++ c ++ d ++ e).all isHexChar
  | _ => false

/-- The fields of a decoded JSON payload that the scanner code ever reads
(`parsed.id`, `parsed.qr_code_id`, and later `data.tree_id`).  `none` is an
absent (`undefined`) field. -/
structure JsonFields where
  id : Option String
  qr_code_id : Option String
  tree_id : Option String
deriving DecidableEq, Repr

/-- What `new URL(data)` exposes to the code: the two query parameters and
the final segment of the pathname (`url.pathname.split(slash).pop()`, slash being the separator character). -/
structure UrlParts where
  treeId : Option String
  qrCodeId : Option String
  pathLast : String
deriving DecidableEq, Repr

/-- The `type` tag of a successful parse. -/
inductive QRType
  | json
  | gs_format
  | url
  | uuid
deriving DecidableEq, Repr

/-- The `data` field attached to a parse result (`json` carries the decoded
payload, `url` carries `{tree_id, qr_code_id\x7d`, `uuid` carries `{tree_id\x7d`). -/
structure PayloadData where
  tree_id : Option String
  qr_code_id : Option String
deriving DecidableEq, Repr

/-- Result object of `parseQRCode`.  Fields absent on some branches of the
JS object literal are `Option`s. -/
structure ParseResult where
  valid : Bool
  id : Option String
  type : Option QRType
  data : Option PayloadData
  error : Option String
deriving DecidableEq, Repr

/-- `JSON.parse` oracle: success returns the fields the code reads, failure
carries the thrown message (`error.message`). -/
def JsonParseFn := String → Except String JsonFields

/-- `new URL` oracle: `none` models the constructor throwing. -/
def UrlParseFn := String → Option UrlParts

/-- Rules 2–5 of `QRScannerModule.parseQRCode` (qr-scanner module, lines
192–235): the `"GS-"` prefix check, the URL check (a `new URL` throw is
caught by the inner `try` and falls through), the UUID regex check, and
the final unrecognized result. -/
def parseRest (urlParse : UrlParseFn) (data : String) : ParseResult :=
  if strStartsWith data "GS-" then
    { valid := true, id := some data, type := some .gs_format,
      data := none, error := none }
  else
    let afterUrl : Option ParseResult :=
      if strIncludes data "http" || strIncludes data "tree-details" then
        match urlParse data with
        | some u =>
            some { valid := true
                   id := jsOr (jsOr u.qrCodeId u.treeId) (some u.pathLast)
                   type := some .url
                   data := some ⟨u.treeId, u.qrCodeId⟩
                   error := none }
        | none => none  -- `catch (urlError)`: not a valid URL, continue
      else none
    match afterUrl with
    | some r => r
    | none =>
        if isUuidFormat data then
          { valid := true, id := some data, type := some .uuid,
            data := some ⟨some data, none⟩, error := none }
        else
          { valid := false, id := none, type := none, data := none,
            error := some "Unknown QR code format. Expected Green Sprint QR." }

/-- Shallow embedding of `QRScannerModule.parseQRCode` proper: rule 1
(JSON), with rules 2–5 factored into `parseRest`.  The whole body sits in
one `try`, so a `JSON.parse` throw is caught by the OUTER catch and
returned as an invalid result carrying the thrown message — it does not
fall through to the later rules. -/
def parseQRCode (jsonParse : JsonParseFn) (urlParse : UrlParseFn)
    (data : String) : ParseResult :=
  if strStartsWith data "\x7b" then
    match jsonParse data with
    | .ok parsed =>
        { valid := true
          id := jsOr parsed.id parsed.qr_code_id
          type := some .json
          data := some ⟨parsed.tree_id, parsed.qr_code_id⟩
          error := none }
    | .error msg =>
        { valid := false, id := none, type := none, data := none,
          error := some msg }
  else parseRest urlParse data

/-- Modelled from the spec: the classifier that §4.1 rule 1 describes, in
which a structured-data decode failure falls through to rules 2–5 ("On
decode failure, fall through to rule 2 (do not immediately mark
invalid)").  Identical to `parseQRCode` except in the decode-failure
case.  Present only to compare the words of the spec with the source. -/
def classifyFallthrough (jsonParse : JsonParseFn) (urlParse : UrlParseFn)
    (data : String) : ParseResult :=
  if strStartsWith data "\x7b" then
    match jsonParse data with
    | .ok parsed =>
        { valid := true
          id := jsOr parsed.id parsed.qr_code_id
          type := some .json
          data := some ⟨parsed.tree_id, parsed.qr_code_id⟩
          error := none }
    | .error _ => parseRest urlParse data
  else parseRest urlParse data

/-- A tree record, restricted to the fields the scan path reads
(`tree.qr_code_id` may be null in the database). -/
structure Tree where
  id : String
  qr_code_id : Option String
deriving DecidableEq, Repr

/-- Which store wrapper a lookup goes through:
`GreenSprintDB.trees.getByQRCode` or `GreenSprintDB.trees.getById`. -/
inductive LookupField
  | byQRCode
  | byId
deriving DecidableEq, Repr

/-- One store call: the wrapper used and the key passed (the code can pass
`undefined`, modelled as `none`). -/
abbrev LookupCall := LookupField × Option String

/-- The record store as a pair of deterministic oracles (the supabase
wrappers `trees.getByQRCode` / `trees.getById`; `none` is "no row"). -/
structure Store where
  getByQRCode : Option String → Option Tree
  getById : Option String → Option Tree

/-- Dispatch a call to the store. -/
def Store.call (st : Store) (f : LookupField) (k : Option String) : Option Tree :=
  match f with
  | .byQRCode => st.getByQRCode k
  | .byId => st.getById k

/-- One step of the fallback chain of `handleScan`: if no tree has been found
yet and the guard of the step holds, issue the store call and append it to the
trace; otherwise pass the accumulator through.  (That step 1 lacks a
`!tree` guard is equivalent, since `tree` is still null there.) -/
def tryLookup (st : Store) (f : LookupField) (k : Option String)
    (cond : Bool) : Option Tree × List LookupCall → Option Tree × List LookupCall
  | (some t, tr) => (some t, tr)
  | (none, tr) => if cond then (st.call f k, tr ++ [(f, k)]) else (none, tr)

/-- The sequential lookup chain of `handleScan` (qr-scanner module, lines
102–132), with the trace of issued store calls:
1. by QR code when `qrInfo.id` is truthy and starts with `"GS-"`;
2. by tree id from `qrInfo.data?.tree_id`;
3. by QR code from `qrInfo.data?.qr_code_id`;
4. by tree id when the parse type is `uuid`;
5. last resort: by QR code then by tree id with `qrInfo.id`. -/
def lookupChain (st : Store) (qrInfo : ParseResult) :
    Option Tree × List LookupCall :=
  let s1 := tryLookup st .byQRCode qrInfo.id
    (jsTruthy qrInfo.id && optStartsWith qrInfo.id "GS-") (none, [])
  let s2 := tryLookup st .byId (qrInfo.data.bind PayloadData.tree_id)
    (jsTruthy (qrInfo.data.bind PayloadData.tree_id)) s1
  let s3 := tryLookup st .byQRCode (qrInfo.data.bind PayloadData.qr_code_id)
    (jsTruthy (qrInfo.data.bind PayloadData.qr_code_id)) s2
  let s4 := tryLookup st .byId qrInfo.id (qrInfo.type == some .uuid) s3
  let s5 := tryLookup st .byQRCode qrInfo.id true s4
  tryLookup st .byId qrInfo.id true s5

/-- The object passed to the `handleScan` callback. -/
structure ScanResult where
  success : Bool
  tree : Option Tree
  qrCodeId : Option (Option String)
  error : Option String
deriving DecidableEq, Repr

/-- Full observable outcome of one `handleScan` run: the callback argument,
the trace of record-store lookups, and the `console.warn` messages. -/
structure ScanOutcome where
  result : ScanResult
  trace : List LookupCall
  warnings : List String
deriving DecidableEq, Repr

/-- Shallow embedding of `QRScannerModule.handleScan` (qr-scanner module,
lines 90–174).  `loggedIn` models `AuthService.isLoggedIn()`;
`recordOutcome` models the body of the inner `try` (the location fetch
followed by `GreenSprintDB.qrCodes.recordScan`), whose failure is caught
and only logged via `console.warn`.  An invalid parse or an exhausted
lookup chain is thrown, caught by the outer `catch`, and reported to the
callback as a `success := false` result. -/
def handleScan (st : Store) (loggedIn : Bool)
    (recordOutcome : Except String Unit)
    (jsonParse : JsonParseFn) (urlParse : UrlParseFn)
    (data : String) : ScanOutcome :=
  let qrInfo := parseQRCode jsonParse urlParse data
  if qrInfo.valid = false then
    { result := { success := false, tree := none, qrCodeId := none,
                  error := some "Invalid QR code format. This doesn\x27t appear to be a Green Sprint QR code." }
      trace := []
      warnings := [] }
  else
    match lookupChain st qrInfo with
    | (none, tr) =>
        { result := { success := false, tree := none, qrCodeId := none,
                      error := some "Tree not found. This QR code may not be registered yet or the tree was deleted." }
          trace := tr
          warnings := [] }
    | (some t, tr) =>
        let warns :=
          if loggedIn then
            match recordOutcome with
            | .ok _ => []
            | .error e => ["Could not record scan: " ++ e]
          else []
        { result := { success := true, tree := some t,
                      qrCodeId := some (jsOr t.qr_code_id qrInfo.id),
                      error := none }
          trace := tr
          warnings := warns }

/-! ## Proximity search (campaign module, `CampaignService`) -/

/-- The platform `Math` object as used by `getNearby` / `calculateDistance`:
`Math.sin`, `Math.cos`, `Math.sqrt`, `Math.atan2` and `Math.PI`, over an
arbitrary ordered field (the JS engine computes in floating point; the
embedding is exact over the field). -/
structure MathModel (α : Type) where
  sin : α → α
  cos : α → α
  sqrt : α → α
  atan2 : α → α → α
  pi : α

/-- Shallow embedding of `CampaignService.calculateDistance` (campaign
module, lines 236–245): the haversine formula with `R = 6371` km. -/
def calculateDistance {α : Type} [LinearOrderedField α] (M : MathModel α)
    (lat1 lon1 lat2 lon2 : α) : α :=
  let R : α := 6371
  let dLat := (lat2 - lat1) * M.pi / 180
  let dLon := (lon2 - lon1) * M.pi / 180
  let a := M.sin (dLat / 2) * M.sin (dLat / 2) +
    M.cos (lat1 * M.pi / 180) * M.cos (lat2 * M.pi / 180) *
      M.sin (dLon / 2) * M.sin (dLon / 2)
  let c := 2 * M.atan2 (M.sqrt a) (M.sqrt (1 - a))
  R * c

/-- The divisor of the longitude-delta computation in `getNearby` (campaign
module, line 209): `111 * Math.cos(lat * Math.PI / 180)`.  The source
divides by it with no guard. -/
def lngDivisor {α : Type} [LinearOrderedField α] (M : MathModel α) (lat : α) : α :=
  111 * M.cos (lat * M.pi / 180)

/-- A row returned by the campaigns store, restricted to what `getNearby`
reads: the two coordinate columns (nullable) plus an opaque payload
standing for the remaining columns. -/
structure GeoRecord (α : Type) where
  payload : Nat
  latitude : Option α
  longitude : Option α
deriving DecidableEq

/-- A record annotated with its computed `distance`, as `getNearby` returns
(the JS code mutates `c.distance` on the row in place). -/
structure NearbyRecord (α : Type) where
  geo : GeoRecord α
  distance : α
deriving DecidableEq

/-- JS truthiness of a possibly-null numeric column: `null`, `undefined`
and `0` are falsy (the source tests `!c.latitude`). -/
def jsTruthyNum {α : Type} [LinearOrderedField α] : Option α → Bool
  | none => false
  | some x => decide (x ≠ 0)

/-- The body of the `filter` callback in `getNearby` (campaign module,
lines 224–229): reject rows with a falsy coordinate (`!c.latitude ||
!c.longitude`), compute the haversine distance, annotate the row with it,
and keep it only when `distance <= radiusKm`. -/
def nearbyFilter {α : Type} [LinearOrderedField α] (M : MathModel α)
    (lat lng radiusKm : α) (c : GeoRecord α) : Option (NearbyRecord α) :=
  if jsTruthyNum c.latitude && jsTruthyNum c.longitude then
    let distance := calculateDistance M lat lng (c.latitude.getD 0) (c.longitude.getD 0)
    if distance ≤ radiusKm then some ⟨c, distance⟩ else none
  else none

/-- Shallow embedding of `CampaignService.getNearby` (campaign module,
lines 204–233).  The supabase query — bounding-box range filters plus the
`status = active` filter and `created_at` ordering — is the external
store, modelled as an oracle receiving the four bounding-box bounds
exactly as the code computes them.  Locally the code then filters via
`nearbyFilter` and sorts ascending by distance. -/
def getNearby {α : Type} [LinearOrderedField α] (M : MathModel α)
    (store : α → α → α → α → List (GeoRecord α))
    (lat lng radiusKm : α) : List (NearbyRecord α) :=
  let latDiff := radiusKm / 111
  let lngDiff := radiusKm / lngDivisor M lat
  let data := store (lat - latDiff) (lat + latDiff) (lng - lngDiff) (lng + lngDiff)
  let filtered := data.filterMap (nearbyFilter M lat lng radiusKm)
  filtered.mergeSort fun a b => a.distance ≤ b.distance

example :
    parseQRCode (fun _ => .error "x") (fun _ => none) "GS-123" =
      { valid := true, id := some "GS-123", type := some .gs_format,
        data := none, error := none } := by decide

example :
    (handleScan ⟨fun _ => none, fun _ => none⟩ false (.ok ())
      (fun _ => .error "x") (fun _ => none) "GS-123").trace =
      [(LookupField.byQRCode, some "GS-123"),
       (LookupField.byQRCode, some "GS-123"),
       (LookupField.byId, some "GS-123")] := by decide

/-! ## Concrete oracles shared by counterexamples and witnesses -/

/-- A `JSON.parse` oracle behaving as it does on `"\x7b\x7d"`: success, with an
object carrying none of the keys the code reads. -/
def jsonParseEmptyObj : JsonParseFn := fun _ => .ok ⟨none, none, none⟩

/-- A `JSON.parse` oracle that always throws (as on any malformed input). -/
def jsonParseThrow : JsonParseFn := fun _ => .error "Unexpected token"

/-- A `new URL` oracle that always throws. -/
def urlParseThrow : UrlParseFn := fun _ => none

/-- The all-miss record store (no registered trees). -/
def emptyStore : Store := ⟨fun _ => none, fun _ => none⟩

/-! ## Helper lemmas -/

theorem jsTruthy_some_iff (s : String) : jsTruthy (some s) = true ↔ s ≠ "" := by
  simp [jsTruthy]

theorem strStartsWith_GS_ne_empty {s : String}
    (h : strStartsWith s "GS-" = true) : s ≠ "" := by
  intro he
  subst he
  exact absurd h (by decide)

theorem isUuidFormat_ne_empty {s : String}
    (h : isUuidFormat s = true) : s ≠ "" := by
  intro he
  subst he
  exact absurd h (by decide)

/-! ## C1 -/

/-- C1, counterexample: on the input consisting of an empty JSON object
(`JSON.parse` succeeds, but the object has neither an `id` nor a
`qr_code_id` key), `parseQRCode` returns `valid = true` with an undefined
`id`, so "`primaryId` is non-empty whenever `valid = true`" fails exactly
on the input the claim singles out. -/
theorem parseQRCode_emptyObj_valid_but_no_id :
    (parseQRCode jsonParseEmptyObj urlParseThrow "\x7b\x7d").valid = true ∧
    jsTruthy (parseQRCode jsonParseEmptyObj urlParseThrow "\x7b\x7d").id = false := by
  decide

/-- C1, amended: for every decode oracle and input, `valid = false` iff no
kind is assigned (the invalid results of the source carry no `type` field,
which is what `Unrecognized` names); and `primaryId` is non-empty whenever
the kind is `NativeCode` (`gs_format`) or `RawUuid` (`uuid`).  For
`StructuredPayload` (`json`) and `LocatorUrl` (`url`) results the id can
be undefined or empty — the decoded object may lack both keys, and a URL
may lack both query parameters and a non-empty last path segment. -/
theorem parseQRCode_valid_iff_typed (jp : JsonParseFn) (up : UrlParseFn)
    (s : String) :
    ((parseQRCode jp up s).valid = false ↔ (parseQRCode jp up s).type = none) ∧
    ((parseQRCode jp up s).type = some QRType.gs_format ∨
        (parseQRCode jp up s).type = some QRType.uuid →
      jsTruthy (parseQRCode jp up s).id = true) := by
  unfold parseQRCode parseRest
  by_cases h1 : strStartsWith s "\x7b" = true
  · simp only [h1, if_true]
    cases hjp : jp s with
    | error msg => simp
    | ok parsed =>
      refine ⟨by simp, ?_⟩
      rintro (h | h) <;> simp at h
  · simp only [h1, Bool.false_eq_true, if_false]
    by_cases h2 : strStartsWith s "GS-" = true
    · simp only [h2, if_true]
      refine ⟨by simp, fun _ => ?_⟩
      rw [jsTruthy_some_iff]
      exact strStartsWith_GS_ne_empty h2
    · simp only [h2, Bool.false_eq_true, if_false]
      by_cases h3 : (strIncludes s "http" || strIncludes s "tree-details") = true
      · simp only [h3, if_true]
        cases hup : up s with
        | some u =>
          refine ⟨by simp, ?_⟩
          rintro (h | h) <;> simp at h
        | none =>
          by_cases h4 : isUuidFormat s = true
          · simp only [h4, if_true]
            refine ⟨by simp, fun _ => ?_⟩
            rw [jsTruthy_some_iff]
            exact isUuidFormat_ne_empty h4
          · simp only [h4, Bool.false_eq_true, if_false]
            simp
      · simp only [h3, Bool.false_eq_true, if_false]
        by_cases h4 : isUuidFormat s = true
        · simp only [h4, if_true]
          refine ⟨by simp, fun _ => ?_⟩
          rw [jsTruthy_some_iff]
          exact isUuidFormat_ne_empty h4
        · simp only [h4, Bool.false_eq_true, if_false]
          simp

/-- C1, witness for the amended theorem at the concrete input `"GS-1"`. -/
theorem parseQRCode_valid_iff_typed_witness :
    jsTruthy (parseQRCode jsonParseThrow urlParseThrow "GS-1").id = true :=
  (parseQRCode_valid_iff_typed jsonParseThrow urlParseThrow "GS-1").2
    (Or.inl (by decide))

/-! ## C2 -/

/-- C2, counterexample: on the malformed-JSON input `"\x7bbad"` (starts with
a brace, decode throws), `parseQRCode` does NOT fall through to the later
rules: it returns, from the outer catch, the invalid result carrying the
thrown decode message, whereas the fall-through classifier of the spec
reaches rule 5
and returns the generic unknown-format result. -/
theorem parseQRCode_no_fallthrough_on_decode_failure :
    parseQRCode jsonParseThrow urlParseThrow "\x7bbad" ≠
      classifyFallthrough jsonParseThrow urlParseThrow "\x7bbad" ∧
    (parseQRCode jsonParseThrow urlParseThrow "\x7bbad").error =
      some "Unexpected token" ∧
    (classifyFallthrough jsonParseThrow urlParseThrow "\x7bbad").error =
      some "Unknown QR code format. Expected Green Sprint QR." := by
  decide

/-- C2, amended: for every input that begins with a brace and whose decode
fails, `parseQRCode` immediately returns the invalid result carrying the
decode error message, without applying the `"GS-"`, URL, or UUID rules —
the whole body sits in one `try`, so the decode throw reaches the outer
catch.  (The classification outcome is still invalid either way: no later
rule can match a brace-prefixed string under a URL parser that rejects
such strings; only the error message differs.) -/
theorem parseQRCode_decode_failure_immediate (jp : JsonParseFn)
    (up : UrlParseFn) (s e : String)
    (h1 : strStartsWith s "\x7b" = true) (h2 : jp s = .error e) :
    parseQRCode jp up s =
      { valid := false, id := none, type := none, data := none,
        error := some e } := by
  unfold parseQRCode
  simp [h1, h2]

/-- C2, witness for the amended theorem at the concrete input `"\x7bx"`. -/
theorem parseQRCode_decode_failure_immediate_witness :
    parseQRCode jsonParseThrow urlParseThrow "\x7bx" =
      { valid := false, id := none, type := none, data := none,
        error := some "Unexpected token" } :=
  parseQRCode_decode_failure_immediate jsonParseThrow urlParseThrow "\x7bx"
    "Unexpected token" (by decide) rfl

/-! ## C3 -/

/-- The end-to-end scenario input of spec §8, property 9. -/
def scanUrl : String := "https://app.example/tree-details.html?id=abc123&qr=GS-999"

theorem jsOr_truthy {a b : Option String} (h : jsTruthy a = true) :
    jsOr a b = a := by
  simp [jsOr, h]

/-- C3: for the scenario input, when the URL parser extracts
`id=abc123, qr=GS-999`, the first store call of the resolver is the QR-code
lookup of `"GS-999"`; if it hits, the scan succeeds with that tree and no
further store call is issued (the trace is exactly that one call), and if
it misses, the second call is the record-id lookup of `"abc123"`. -/
theorem handleScan_url_candidate_order (gq gi : Option String → Option Tree)
    (li : Bool) (ro : Except String Unit) (jp : JsonParseFn) (up : UrlParseFn)
    (p : String) (t : Tree)
    (hup : up scanUrl = some ⟨some "abc123", some "GS-999", p⟩) :
    (gq (some "GS-999") = some t →
      (handleScan ⟨gq, gi⟩ li ro jp up scanUrl).trace =
          [(LookupField.byQRCode, some "GS-999")] ∧
        (handleScan ⟨gq, gi⟩ li ro jp up scanUrl).result.success = true ∧
        (handleScan ⟨gq, gi⟩ li ro jp up scanUrl).result.tree = some t) ∧
    (gq (some "GS-999") = none →
      (handleScan ⟨gq, gi⟩ li ro jp up scanUrl).trace.take 2 =
        [(LookupField.byQRCode, some "GS-999"),
         (LookupField.byId, some "abc123")]) := by
  have hp : parseQRCode jp up scanUrl =
      { valid := true, id := some "GS-999", type := some .url,
        data := some ⟨some "abc123", some "GS-999"⟩, error := none } := by
    unfold parseQRCode parseRest
    rw [show strStartsWith scanUrl "\x7b" = false from by decide,
      show strStartsWith scanUrl "GS-" = false from by decide,
      show (strIncludes scanUrl "http" || strIncludes scanUrl "tree-details") = true
        from by decide]
    simp only [Bool.false_eq_true, if_false, if_true, hup]
    rw [jsOr_truthy (by decide), jsOr_truthy (by decide)]
  constructor
  · intro hgq
    have hlc : lookupChain ⟨gq, gi⟩ (parseQRCode jp up scanUrl) =
        (some t, [(LookupField.byQRCode, some "GS-999")]) := by
      rw [hp]
      unfold lookupChain
      simp only [tryLookup, Store.call]
      rw [show (jsTruthy (some "GS-999") &&
          optStartsWith (some "GS-999") "GS-") = true from by decide]
      simp [hgq]
    unfold handleScan
    rw [hp] at hlc ⊢
    simp [hlc]
  · intro hgq
    have hstep : ∀ rest : ScanOutcome → List LookupCall,
        True := fun _ => trivial
    unfold handleScan
    rw [hp]
    simp only [Bool.true_eq_false, if_false]
    have hlc2 : (lookupChain ⟨gq, gi⟩
        { valid := true, id := some "GS-999", type := some QRType.url,
          data := some ⟨some "abc123", some "GS-999"⟩, error := none }).2.take 2 =
        [(LookupField.byQRCode, some "GS-999"),
         (LookupField.byId, some "abc123")] := by
      unfold lookupChain
      simp only [tryLookup, Store.call]
      rw [show (jsTruthy (some "GS-999") &&
          optStartsWith (some "GS-999") "GS-") = true from by decide]
      simp only [if_true, hgq]
      simp only [Option.some_bind,
        show jsTruthy (some "abc123") = true from by decide,
        show jsTruthy (some "GS-999") = true from by decide,
        show (some QRType.url == some QRType.uuid) = false from by decide,
        if_true, Bool.false_eq_true, if_false, hgq]
      cases hgi : gi (some "abc123") with
      | some t2 => simp [hgi]
      | none =>
        cases hgi2 : gi (some "GS-999") <;>
          simp [hgq, hgi, hgi2, List.take]
    cases hfind : lookupChain ⟨gq, gi⟩
        { valid := true, id := some "GS-999", type := some QRType.url,
          data := some ⟨some "abc123", some "GS-999"⟩, error := none } with
    | mk tr? tr =>
      rw [hfind] at hlc2
      cases tr? <;> simpa using hlc2

/-- C3, witness: a concrete URL parser and a store that hits on the
QR-code candidate. -/
theorem handleScan_url_candidate_order_witness :
    (handleScan
        ⟨fun k => if k = some "GS-999" then some ⟨"T1", some "GS-999"⟩ else none,
         fun _ => none⟩ false (.ok ()) jsonParseThrow
        (fun s => if s = scanUrl
          then some ⟨some "abc123", some "GS-999", "tree-details.html"⟩
          else none) scanUrl).trace =
      [(LookupField.byQRCode, some "GS-999")] :=
  ((handleScan_url_candidate_order
      (fun k => if k = some "GS-999" then some ⟨"T1", some "GS-999"⟩ else none)
      (fun _ => none) false (.ok ()) jsonParseThrow
      (fun s => if s = scanUrl
        then some ⟨some "abc123", some "GS-999", "tree-details.html"⟩
        else none) "tree-details.html" ⟨"T1", some "GS-999"⟩
      (by decide)).1 (by decide)).1

/-! ## C5 -/

/-- C5, counterexample: on the NativeCode input `"GS-123"` with an all-miss
store, the issued candidate sequence is QR-code lookup, the SAME QR-code
lookup again (step 1 and last-resort step 5 coincide), then record-id
lookup — two consecutive identical (field, value) pairs, refuting "never
contains two consecutive identical pairs". -/
theorem handleScan_trace_consecutive_duplicate :
    (handleScan emptyStore false (.ok ()) jsonParseThrow urlParseThrow
        "GS-123").trace =
      [(LookupField.byQRCode, some "GS-123"),
       (LookupField.byQRCode, some "GS-123"),
       (LookupField.byId, some "GS-123")] ∧
    (handleScan emptyStore false (.ok ()) jsonParseThrow urlParseThrow
        "GS-123").trace[0]? =
      (handleScan emptyStore false (.ok ()) jsonParseThrow urlParseThrow
        "GS-123").trace[1]? := by
  decide

theorem tryLookup_miss (st : Store) (f : LookupField) (k : Option String)
    (c : Bool) (tr : List LookupCall) (h : st.call f k = none) :
    tryLookup st f k c (none, tr) = (none, if c then tr ++ [(f, k)] else tr) := by
  cases c <;> simp [tryLookup, h]

/-- C5, amended: consecutive identical pairs DO occur (see the
counterexample), but the tail property holds unconditionally rather than
"unless already present": when every lookup misses, the issued candidate
sequence always ends with the two generic fallback pairs — QR-code lookup
of `qrInfo.id`, then record-id lookup of `qrInfo.id` — which steps 5a/5b
append even when the same pair already appeared earlier. -/
theorem lookupChain_allMiss_fallback_tail (st : Store) (q : ParseResult)
    (hq : ∀ k, st.getByQRCode k = none) (hi : ∀ k, st.getById k = none) :
    ∃ pre, (lookupChain st q).2 =
      pre ++ [(LookupField.byQRCode, q.id), (LookupField.byId, q.id)] := by
  have hc : ∀ f k, st.call f k = none := by
    intro f k
    cases f <;> simp [Store.call, hq, hi]
  have key : ∀ f k c tr, tryLookup st f k c (none, tr) =
      (none, if c then tr ++ [(f, k)] else tr) :=
    fun f k c tr => tryLookup_miss st f k c tr (hc f k)
  unfold lookupChain
  simp only [key, if_pos, List.append_assoc]
  exact ⟨_, rfl⟩

/-- C5, witness for the amended theorem: the all-miss store and a
NativeCode parse result. -/
theorem lookupChain_allMiss_fallback_tail_witness :
    ∃ pre, (lookupChain emptyStore
        ⟨true, some "x", some QRType.gs_format, none, none⟩).2 =
      pre ++ [(LookupField.byQRCode, some "x"), (LookupField.byId, some "x")] :=
  lookupChain_allMiss_fallback_tail emptyStore
    ⟨true, some "x", some QRType.gs_format, none, none⟩
    (fun _ => rfl) (fun _ => rfl)

/-! ## C6 -/

/-- C6: the outcome of the best-effort scan recording (the inner `try`
around the location fetch and `recordScan`) never influences the callback
result or the lookup trace; in particular, when the chain resolves a tree
on a valid parse, the callback still receives `success = true` with that
tree and no error even when recording fails — the failure is only
`console.warn`-logged. -/
theorem handleScan_record_failure_harmless
    (gq gi : Option String → Option Tree) (li : Bool)
    (ro1 ro2 : Except String Unit) (jp : JsonParseFn) (up : UrlParseFn)
    (s : String) :
    ((handleScan ⟨gq, gi⟩ li ro1 jp up s).result =
        (handleScan ⟨gq, gi⟩ li ro2 jp up s).result ∧
      (handleScan ⟨gq, gi⟩ li ro1 jp up s).trace =
        (handleScan ⟨gq, gi⟩ li ro2 jp up s).trace) ∧
    (∀ t e, (parseQRCode jp up s).valid = true →
      (lookupChain ⟨gq, gi⟩ (parseQRCode jp up s)).1 = some t →
      (handleScan ⟨gq, gi⟩ li (.error e) jp up s).result.success = true ∧
      (handleScan ⟨gq, gi⟩ li (.error e) jp up s).result.tree = some t ∧
      (handleScan ⟨gq, gi⟩ li (.error e) jp up s).result.error = none ∧
      (handleScan ⟨gq, gi⟩ li (.error e) jp up s).warnings =
        (if li then ["Could not record scan: " ++ e] else [])) := by
  constructor
  · unfold handleScan
    cases hv : (parseQRCode jp up s).valid with
    | false => simp [hv]
    | true =>
      simp only [hv, Bool.true_eq_false, if_false]
      cases hlc : lookupChain ⟨gq, gi⟩ (parseQRCode jp up s) with
      | mk o tr => cases o <;> simp
  · intro t e hv hhit
    unfold handleScan
    simp only [hv, Bool.true_eq_false, if_false]
    cases hlc : lookupChain ⟨gq, gi⟩ (parseQRCode jp up s) with
    | mk o tr =>
      rw [hlc] at hhit
      simp only at hhit
      subst hhit
      cases li <;> simp

/-- C6, witness at a concrete hit. -/
theorem handleScan_record_failure_harmless_witness :
    (handleScan ⟨fun _ => some ⟨"T1", some "GS-7"⟩, fun _ => none⟩ true
        (.error "network down") jsonParseThrow urlParseThrow
        "GS-7").result.success = true :=
  ((handleScan_record_failure_harmless
      (fun _ => some ⟨"T1", some "GS-7"⟩) (fun _ => none) true
      (.ok ()) (.ok ()) jsonParseThrow urlParseThrow "GS-7").2
    ⟨"T1", some "GS-7"⟩ "network down" (by decide) (by decide)).1

/-! ## C7 -/

/-- C7: on `"not-a-real-code"` — and uniformly on every input the
classifier rejects — `handleScan` reports a validation failure
(`success = false` with the invalid-format message) and issues no record
store lookup at all (empty trace). -/
theorem handleScan_unrecognized_no_lookup (st : Store) (li : Bool)
    (ro : Except String Unit) (jp : JsonParseFn) (up : UrlParseFn) :
    handleScan st li ro jp up "not-a-real-code" =
      { result := { success := false, tree := none, qrCodeId := none,
                    error := some "Invalid QR code format. This doesn\x27t appear to be a Green Sprint QR code." },
        trace := [], warnings := [] } ∧
    (∀ s, (parseQRCode jp up s).valid = false →
      (handleScan st li ro jp up s).result.success = false ∧
      (handleScan st li ro jp up s).trace = []) := by
  have hp : parseQRCode jp up "not-a-real-code" =
      { valid := false, id := none, type := none, data := none,
        error := some "Unknown QR code format. Expected Green Sprint QR." } := by
    unfold parseQRCode parseRest
    rw [show strStartsWith "not-a-real-code" "\x7b" = false from by decide,
      show strStartsWith "not-a-real-code" "GS-" = false from by decide,
      show (strIncludes "not-a-real-code" "http" ||
        strIncludes "not-a-real-code" "tree-details") = false from by decide,
      show isUuidFormat "not-a-real-code" = false from by decide]
    simp
  constructor
  · unfold handleScan
    rw [hp]
    simp
  · intro s hval
    unfold handleScan
    simp [hval]

/-- C7, witness for the uniform part at the concrete input `"xyz"`. -/
theorem handleScan_unrecognized_no_lookup_witness :
    (handleScan emptyStore false (.ok ()) jsonParseThrow urlParseThrow
        "xyz").result.success = false :=
  ((handleScan_unrecognized_no_lookup emptyStore false (.ok ())
      jsonParseThrow urlParseThrow).2 "xyz" (by decide)).1

/-! ## Geo: concrete instances for witnesses -/

/-- A degenerate rational Math model (zero sine, constant-one cosine,
identity square root, first-projection atan2, zero pi).  It satisfies the
algebraic hypotheses the geo theorems assume of the platform functions and
lets witnesses evaluate. -/
def mathZero : MathModel ℚ :=
  ⟨fun _ => 0, fun _ => 1, id, fun y _ => y, 0⟩

/-- A store returning one fixed record regardless of the bounding box. -/
def storeOne : ℚ → ℚ → ℚ → ℚ → List (GeoRecord ℚ) :=
  fun _ _ _ _ => [⟨7, some 1, some 1⟩]

/-! ## C4 -/

/-- C4: `getNearby` never returns a record whose computed haversine
distance from the center exceeds `radiusKm` — whatever the store hands
back from the bounding-box pre-filter, including box-corner records, the
exact check `distance <= radiusKm` removes anything beyond the circle —
each returned record is annotated with exactly the haversine distance of
its own coordinates, and the result is sorted ascending by that
distance. -/
theorem getNearby_within_radius_sorted {α : Type} [LinearOrderedField α]
    (M : MathModel α) (store : α → α → α → α → List (GeoRecord α))
    (lat lng radiusKm : α) :
    (∀ x ∈ getNearby M store lat lng radiusKm,
        x.distance ≤ radiusKm ∧
        x.distance = calculateDistance M lat lng
          (x.geo.latitude.getD 0) (x.geo.longitude.getD 0)) ∧
    List.Sorted (fun a b : NearbyRecord α => a.distance ≤ b.distance)
      (getNearby M store lat lng radiusKm) := by
  constructor
  · intro x hx
    unfold getNearby at hx
    rw [List.mem_mergeSort, List.mem_filterMap] at hx
    obtain ⟨c, _, hfc⟩ := hx
    unfold nearbyFilter at hfc
    by_cases h1 : (jsTruthyNum c.latitude && jsTruthyNum c.longitude) = true
    · rw [if_pos h1] at hfc
      by_cases h2 : calculateDistance M lat lng (c.latitude.getD 0)
          (c.longitude.getD 0) ≤ radiusKm
      · rw [if_pos h2] at hfc
        cases hfc
        exact ⟨h2, rfl⟩
      · rw [if_neg h2] at hfc
        cases hfc
    · rw [if_neg h1] at hfc
      cases hfc
  · unfold getNearby
    refine List.Pairwise.imp ?_ (List.sorted_mergeSort ?_ ?_ _)
    · intro a b h
      exact of_decide_eq_true h
    · intro a b c hab hbc
      exact decide_eq_true
        (le_trans (of_decide_eq_true hab) (of_decide_eq_true hbc))
    · intro a b
      rcases le_total a.distance b.distance with h | h
      · rw [decide_eq_true h, Bool.true_or]
      · rw [decide_eq_true h, Bool.or_true]

/-- C4, witness at a concrete rational instance whose single candidate is
returned with computed distance 0. -/
theorem getNearby_within_radius_sorted_witness :
    (⟨⟨7, some 1, some 1⟩, 0⟩ : NearbyRecord ℚ).distance ≤ 1 :=
  ((getNearby_within_radius_sorted mathZero storeOne 0 0 1).1
    ⟨⟨7, some 1, some 1⟩, 0⟩
    (by simp [getNearby, storeOne, nearbyFilter, jsTruthyNum,
      calculateDistance, mathZero])).1

/-! ## C10 -/

/-- C10: the presence test in the exact-distance filter is a JS truthiness
test, so a record whose latitude or longitude column holds the number 0 is
rejected exactly as a record with a missing coordinate is: its filter
result is `none`, identical to that of the fully-coordinate-less record,
and it never appears in `getNearby` results — even if it lies within
`radiusKm` of the center (records on the equator or prime meridian are
never returned). -/
theorem getNearby_zero_coordinate_excluded {α : Type} [LinearOrderedField α]
    (M : MathModel α) (store : α → α → α → α → List (GeoRecord α))
    (lat lng radiusKm : α) (c : GeoRecord α)
    (h : c.latitude = some 0 ∨ c.longitude = some 0) :
    nearbyFilter M lat lng radiusKm c = none ∧
    nearbyFilter M lat lng radiusKm c =
      nearbyFilter M lat lng radiusKm ⟨c.payload, none, none⟩ ∧
    ∀ x ∈ getNearby M store lat lng radiusKm, x.geo ≠ c := by
  have hnone : nearbyFilter M lat lng radiusKm c = none := by
    rcases h with h | h <;>
      simp [nearbyFilter, jsTruthyNum, h]
  refine ⟨hnone, ?_, ?_⟩
  · rw [hnone]
    simp [nearbyFilter, jsTruthyNum]
  · intro x hx hgeo
    unfold getNearby at hx
    rw [List.mem_mergeSort, List.mem_filterMap] at hx
    obtain ⟨c2, _, hfc⟩ := hx
    have hc2 : c2 = c := by
      unfold nearbyFilter at hfc
      by_cases h1 : (jsTruthyNum c2.latitude && jsTruthyNum c2.longitude) = true
      · rw [if_pos h1] at hfc
        by_cases h2 : calculateDistance M lat lng (c2.latitude.getD 0)
            (c2.longitude.getD 0) ≤ radiusKm
        · rw [if_pos h2] at hfc
          cases hfc
          exact hgeo
        · rw [if_neg h2] at hfc
          cases hfc
      · rw [if_neg h1] at hfc
        cases hfc
    rw [hc2] at hfc
    rw [hnone] at hfc
    cases hfc

/-- C10, witness: the record sitting on the prime meridian crossing
(latitude 0) is filtered out. -/
theorem getNearby_zero_coordinate_excluded_witness :
    nearbyFilter mathZero 0 0 (1 : ℚ) ⟨5, some 0, some 1⟩ = none :=
  (getNearby_zero_coordinate_excluded mathZero storeOne 0 0 1
    ⟨5, some 0, some 1⟩ (Or.inl rfl)).1

/-! ## C9 -/

/-- C9: for every Math model whose sine is odd (hence vanishes at 0) and
whose square root and atan2 agree with the real functions on the corner
values `sqrt 0 = 0`, `sqrt 1 = 1`, `atan2 0 1 = 0` — all satisfied by the
actual `Math` functions — the haversine `calculateDistance` is zero on
identical points and symmetric in its two points, as exact field
equations. -/
theorem calculateDistance_refl_symm {α : Type} [LinearOrderedField α]
    (M : MathModel α)
    (hsin0 : M.sin 0 = 0) (hsodd : ∀ x, M.sin (-x) = - M.sin x)
    (hsqrt0 : M.sqrt 0 = 0) (hsqrt1 : M.sqrt 1 = 1)
    (hatan : M.atan2 0 1 = 0) :
    (∀ lat lon, calculateDistance M lat lon lat lon = 0) ∧
    (∀ lat1 lon1 lat2 lon2,
      calculateDistance M lat1 lon1 lat2 lon2 =
        calculateDistance M lat2 lon2 lat1 lon1) := by
  constructor
  · intro lat lon
    simp only [calculateDistance]
    rw [show (lat - lat) * M.pi / 180 = 0 by ring,
      show (lon - lon) * M.pi / 180 = 0 by ring]
    simp [hsin0, hsqrt0, hsqrt1, hatan]
  · intro a1 o1 a2 o2
    simp only [calculateDistance]
    have key : M.sin ((a1 - a2) * M.pi / 180 / 2) *
          M.sin ((a1 - a2) * M.pi / 180 / 2) +
        M.cos (a2 * M.pi / 180) * M.cos (a1 * M.pi / 180) *
          M.sin ((o1 - o2) * M.pi / 180 / 2) *
          M.sin ((o1 - o2) * M.pi / 180 / 2) =
        M.sin ((a2 - a1) * M.pi / 180 / 2) *
          M.sin ((a2 - a1) * M.pi / 180 / 2) +
        M.cos (a1 * M.pi / 180) * M.cos (a2 * M.pi / 180) *
          M.sin ((o2 - o1) * M.pi / 180 / 2) *
          M.sin ((o2 - o1) * M.pi / 180 / 2) := by
      rw [show (a1 - a2) * M.pi / 180 / 2 = -((a2 - a1) * M.pi / 180 / 2) by ring,
        show (o1 - o2) * M.pi / 180 / 2 = -((o2 - o1) * M.pi / 180 / 2) by ring,
        hsodd, hsodd]
      ring
    rw [key]

/-- C9, witness at the degenerate rational model and concrete points. -/
theorem calculateDistance_refl_symm_witness :
    calculateDistance mathZero 1 2 1 2 = 0 ∧
    calculateDistance mathZero 1 2 3 4 = calculateDistance mathZero 3 4 1 2 := by
  have h := calculateDistance_refl_symm mathZero rfl
    (fun x => by simp [mathZero]) rfl rfl rfl
  exact ⟨h.1 1 2, h.2 1 2 3 4⟩

/-! ## C8 -/

/-- The real-analytic instantiation of the platform Math object:
`Math.atan2(y, x)` is the argument of the complex number `x + i y`. -/
noncomputable def realMath : MathModel ℝ :=
  ⟨Real.sin, Real.cos, Real.sqrt, fun y x => Complex.arg ⟨x, y⟩, Real.pi⟩

/-- C8, counterexample: the longitude-delta computation of `getNearby` is
NOT guarded — at latitude 90 its divisor `111 * cos(lat * π / 180)` is
exactly zero in real arithmetic, so the code performs an unguarded
division by zero at the pole.  (The JS runtime merely never raises: its
floating-point `Math.cos(π/2)` is a tiny nonzero value and `x / 0` is
`Infinity`, not an exception, so no clamp or widening exists in the
source.) -/
theorem lngDivisor_pole_zero : lngDivisor realMath (90 : ℝ) = 0 := by
  unfold lngDivisor realMath
  rw [show (90 : ℝ) * Real.pi / 180 = Real.pi / 2 by ring]
  simp [Real.cos_pi_div_two]

/-- C8, amended: the computation contains no guard; its divisor vanishes
at the poles (see the counterexample), and the function totalizes only
because division is total in the host (and in this embedding).  Away from
the poles the computation is genuinely division-by-zero free: for every
latitude of absolute value below 90 degrees the divisor is nonzero. -/
theorem lngDivisor_ne_zero_away_from_poles (lat : ℝ) (h : |lat| < 90) :
    lngDivisor realMath lat ≠ 0 := by
  unfold lngDivisor realMath
  have hpi := Real.pi_pos
  have habs : |lat * Real.pi / 180| < Real.pi / 2 := by
    rw [abs_div, abs_mul, abs_of_pos hpi, show |(180 : ℝ)| = 180 by norm_num]
    rw [div_lt_iff₀ (by norm_num : (0 : ℝ) < 180)]
    calc |lat| * Real.pi < 90 * Real.pi := by
          exact mul_lt_mul_of_pos_right h hpi
      _ = Real.pi / 2 * 180 := by ring
  have hcos : 0 < Real.cos (lat * Real.pi / 180) :=
    Real.cos_pos_of_mem_Ioo (abs_lt.mp habs |> fun hh => ⟨by linarith [hh.1], hh.2⟩)
  exact (mul_pos (by norm_num : (0 : ℝ) < 111) hcos).ne'

/-- C8, witness: at the equator the divisor is nonzero. -/
theorem lngDivisor_ne_zero_away_from_poles_witness :
    lngDivisor realMath (0 : ℝ) ≠ 0 :=
  lngDivisor_ne_zero_away_from_poles 0 (by norm_num)

end GreenSprint
